import Mathlib

/-!
Verification of the SustentaM front-end components: the login form with RUT
pre-validation (LoginForm, `onSubmit`) and the seat-icon demo grids
(SeatIconDemo).  The submit handler is embedded as a trace of UI-state events;
the grids as lists of rendered seat descriptors.
-/

/-- Result of the RUT validation collaborator `validarRUT`: a validity flag and
a human-readable message.  The routine itself lives outside the files at hand,
so it is kept abstract (a `String → RutResult` parameter) throughout. -/
structure RutResult where
  valido : Bool
  mensaje : String
deriving DecidableEq

/-- The login form payload, as produced by the form library for `onSubmit`. -/
structure LoginFormData where
  usuario : String
  clave : String
deriving DecidableEq

/-- Outcome of the external authentication collaborator `login`: it either
resolves to a boolean or throws. -/
inductive LoginOutcome where
  | resolves (success : Bool)
  | throws
deriving DecidableEq

/-- Observable UI-state events emitted by the submit handler, in order:
writes to the `authError` banner, writes to the `loading` flag, and
invocations of the authentication collaborator with the raw field values. -/
inductive Event where
  | setLoading (b : Bool)
  | setAuthError (msg : String)
  | loginCall (usuario clave : String)
deriving DecidableEq

/-- The `onSubmit` handler of LoginForm as the ordered trace of events it
emits: it sets `loading` to true, clears the banner, runs the RUT
pre-validation, and on failure sets the RUT banner and stops; otherwise it
calls `login` with the raw field values and, depending on the outcome, sets
the incorrect-credentials banner, the generic banner, or nothing, finally
resetting `loading` on every path. -/
def onSubmit (validarRUT : String → RutResult) (login : LoginOutcome)
    (data : LoginFormData) : List Event :=
  Event.setLoading true ::
  Event.setAuthError "" ::
  (let r := validarRUT data.usuario
   if !r.valido then
     [Event.setAuthError ("RUT inválido: " ++ r.mensaje), Event.setLoading false]
   else
     Event.loginCall data.usuario data.clave ::
     ((match login with
       | LoginOutcome.resolves true => []
       | LoginOutcome.resolves false => [Event.setAuthError "Usuario o clave incorrectos"]
       | LoginOutcome.throws => [Event.setAuthError "Error al iniciar sesión"]) ++
      [Event.setLoading false]))

/-- The component state touched by the handler: the error banner and the
loading flag. -/
structure FormState where
  authError : String
  loading : Bool
deriving DecidableEq

/-- Effect of a single event on the component state; a `loginCall` changes no
state by itself. -/
def applyEvent (s : FormState) : Event → FormState
  | Event.setLoading b => { s with loading := b }
  | Event.setAuthError msg => { s with authError := msg }
  | Event.loginCall _ _ => s

/-- State after a trace of events, from a given starting state. -/
def foldState (s : FormState) (tr : List Event) : FormState :=
  tr.foldl applyEvent s

/-- The authentication invocations recorded in a trace, with their raw
argument pairs. -/
def loginCalls (tr : List Event) : List (String × String) :=
  tr.filterMap fun e =>
    match e with
    | Event.loginCall u c => some (u, c)
    | _ => none

/-- The component state at the moment each authentication call starts. -/
def statesAtCalls (s : FormState) : List Event → List FormState
  | [] => []
  | e :: rest =>
    match e with
    | Event.loginCall _ _ => s :: statesAtCalls (applyEvent s e) rest
    | _ => statesAtCalls (applyEvent s e) rest

/-- The sequence of values written to the `loading` flag along a trace. -/
def loadingWrites (tr : List Event) : List Bool :=
  tr.filterMap fun e =>
    match e with
    | Event.setLoading b => some b
    | _ => none

/-- Modelled from the spec: the submit Button (component not among the files
at hand) disables interaction and shows a loading affordance exactly while the
`loading` flag passed to it is true. -/
def buttonDisabled (loading : Bool) : Bool :=
  loading

/-- A concrete validator instance that accepts every string, used to
instantiate theorems at concrete inputs. -/
def validarAccept : String → RutResult :=
  fun _ => { valido := true, mensaje := "" }

/-- A concrete validator instance that rejects every string, used to
instantiate theorems at concrete inputs. -/
def validarReject : String → RutResult :=
  fun _ => { valido := false, mensaje := "Formato incorrecto" }

/-- C1: an invalid RUT sets the RUT banner and blocks authentication. -/
theorem c1_invalid_rut_blocks_auth (validarRUT : String → RutResult)
    (login : LoginOutcome) (data : LoginFormData) (s0 : FormState)
    (h : (validarRUT data.usuario).valido = false) :
    loginCalls (onSubmit validarRUT login data) = [] ∧
    (foldState s0 (onSubmit validarRUT login data)).authError =
      "RUT inválido: " ++ (validarRUT data.usuario).mensaje := by
  simp [onSubmit, h, loginCalls, foldState, applyEvent]

/-- Witness for C1 at a concrete rejected submission. -/
theorem c1_invalid_rut_blocks_auth_witness :
    (validarReject "12345678-9").valido = false ∧
    (loginCalls (onSubmit validarReject (LoginOutcome.resolves true)
        { usuario := "12345678-9", clave := "pw" }) = [] ∧
      (foldState { authError := "", loading := false }
          (onSubmit validarReject (LoginOutcome.resolves true)
            { usuario := "12345678-9", clave := "pw" })).authError =
        "RUT inválido: " ++ (validarReject "12345678-9").mensaje) :=
  ⟨by decide,
   c1_invalid_rut_blocks_auth validarReject (LoginOutcome.resolves true)
     { usuario := "12345678-9", clave := "pw" }
     { authError := "", loading := false } (by decide)⟩

/-- C3: a valid RUT leads to exactly one authentication call, with the two raw
field values. -/
theorem c3_valid_rut_calls_login_once (validarRUT : String → RutResult)
    (login : LoginOutcome) (data : LoginFormData)
    (h : (validarRUT data.usuario).valido = true) :
    loginCalls (onSubmit validarRUT login data) = [(data.usuario, data.clave)] := by
  cases login with
  | resolves success => cases success <;> simp [onSubmit, h, loginCalls]
  | throws => simp [onSubmit, h, loginCalls]

/-- Witness for C3 at a concrete accepted submission. -/
theorem c3_valid_rut_calls_login_once_witness :
    (validarAccept "11.111.111-1").valido = true ∧
    loginCalls (onSubmit validarAccept (LoginOutcome.resolves false)
        { usuario := "11.111.111-1", clave := "admin" }) =
      [("11.111.111-1", "admin")] :=
  ⟨by decide,
   c3_valid_rut_calls_login_once validarAccept (LoginOutcome.resolves false)
     { usuario := "11.111.111-1", clave := "admin" } (by decide)⟩

/-- C4: once the authentication call is reached, a true result leaves the
banner empty, a false result sets the incorrect-credentials message, and a
thrown error sets the generic message. -/
theorem c4_auth_outcome_banner (validarRUT : String → RutResult)
    (login : LoginOutcome) (data : LoginFormData) (s0 : FormState)
    (h : (validarRUT data.usuario).valido = true) :
    (login = LoginOutcome.resolves true →
      (foldState s0 (onSubmit validarRUT login data)).authError = "") ∧
    (login = LoginOutcome.resolves false →
      (foldState s0 (onSubmit validarRUT login data)).authError =
        "Usuario o clave incorrectos") ∧
    (login = LoginOutcome.throws →
      (foldState s0 (onSubmit validarRUT login data)).authError =
        "Error al iniciar sesión") := by
  refine ⟨fun hl => ?_, fun hl => ?_, fun hl => ?_⟩ <;>
    subst hl <;> simp [onSubmit, h, foldState, applyEvent]

/-- Witness for C4 at a concrete submission whose authentication fails with a
false result. -/
theorem c4_auth_outcome_banner_witness :
    (validarAccept "11.111.111-1").valido = true ∧
    ((LoginOutcome.resolves false = LoginOutcome.resolves true →
      (foldState { authError := "", loading := false }
          (onSubmit validarAccept (LoginOutcome.resolves false)
            { usuario := "11.111.111-1", clave := "bad" })).authError = "") ∧
    (LoginOutcome.resolves false = LoginOutcome.resolves false →
      (foldState { authError := "", loading := false }
          (onSubmit validarAccept (LoginOutcome.resolves false)
            { usuario := "11.111.111-1", clave := "bad" })).authError =
        "Usuario o clave incorrectos") ∧
    (LoginOutcome.resolves false = LoginOutcome.throws →
      (foldState { authError := "", loading := false }
          (onSubmit validarAccept (LoginOutcome.resolves false)
            { usuario := "11.111.111-1", clave := "bad" })).authError =
        "Error al iniciar sesión")) :=
  ⟨by decide,
   c4_auth_outcome_banner validarAccept (LoginOutcome.resolves false)
     { usuario := "11.111.111-1", clave := "bad" }
     { authError := "", loading := false } (by decide)⟩

/-- C8: whenever the authentication call is pending, the loading flag is true
and the submit control is disabled; on every exit path loading ends false. -/
theorem c8_loading_during_auth (validarRUT : String → RutResult)
    (login : LoginOutcome) (data : LoginFormData) (s0 : FormState) :
    (∀ st ∈ statesAtCalls s0 (onSubmit validarRUT login data),
      st.loading = true ∧ buttonDisabled st.loading = true) ∧
    (foldState s0 (onSubmit validarRUT login data)).loading = false := by
  cases hv : (validarRUT data.usuario).valido with
  | false =>
    simp [onSubmit, hv, statesAtCalls, applyEvent, foldState]
  | true =>
    cases login with
    | resolves success =>
      cases success <;>
        simp [onSubmit, hv, statesAtCalls, applyEvent, foldState, buttonDisabled]
    | throws =>
      simp [onSubmit, hv, statesAtCalls, applyEvent, foldState, buttonDisabled]

/-- Witness for C8 at a concrete accepted submission that resolves true. -/
theorem c8_loading_during_auth_witness :
    (∀ st ∈ statesAtCalls { authError := "stale", loading := false }
        (onSubmit validarAccept (LoginOutcome.resolves true)
          { usuario := "11.111.111-1", clave := "admin" }),
      st.loading = true ∧ buttonDisabled st.loading = true) ∧
    (foldState { authError := "stale", loading := false }
        (onSubmit validarAccept (LoginOutcome.resolves true)
          { usuario := "11.111.111-1", clave := "admin" })).loading = false :=
  c8_loading_during_auth validarAccept (LoginOutcome.resolves true)
    { usuario := "11.111.111-1", clave := "admin" }
    { authError := "stale", loading := false }

/-- C10: every run of the handler first sets loading and clears the banner
before validation, so a stale banner never survives a later successful
submission, and the RUT-failure banner is exactly the prefixed validator
message. -/
theorem c10_banner_reset_first (validarRUT : String → RutResult)
    (login : LoginOutcome) (data : LoginFormData) (s0 : FormState) :
    (onSubmit validarRUT login data).take 2 =
      [Event.setLoading true, Event.setAuthError ""] ∧
    foldState s0 ((onSubmit validarRUT login data).take 2) =
      { authError := "", loading := true } ∧
    ((validarRUT data.usuario).valido = true → login = LoginOutcome.resolves true →
      (foldState s0 (onSubmit validarRUT login data)).authError = "") ∧
    ((validarRUT data.usuario).valido = false →
      (foldState s0 (onSubmit validarRUT login data)).authError =
        "RUT inválido: " ++ (validarRUT data.usuario).mensaje) := by
  refine ⟨?_, ?_, fun hv hl => ?_, fun hv => ?_⟩
  · cases hb : (validarRUT data.usuario).valido <;> simp [onSubmit, hb]
  · cases hb : (validarRUT data.usuario).valido <;>
      simp [onSubmit, hb, foldState, applyEvent]
  · subst hl; simp [onSubmit, hv, foldState, applyEvent]
  · simp [onSubmit, hv, foldState, applyEvent]

/-- Witness for C10: a stale banner from a previous attempt disappears on a
later submission that resolves true. -/
theorem c10_banner_reset_first_witness :
    ((onSubmit validarAccept (LoginOutcome.resolves true)
        { usuario := "11.111.111-1", clave := "admin" }).take 2 =
      [Event.setLoading true, Event.setAuthError ""] ∧
    foldState { authError := "Usuario o clave incorrectos", loading := false }
        ((onSubmit validarAccept (LoginOutcome.resolves true)
          { usuario := "11.111.111-1", clave := "admin" }).take 2) =
      { authError := "", loading := true } ∧
    ((validarAccept "11.111.111-1").valido = true →
      LoginOutcome.resolves true = LoginOutcome.resolves true →
      (foldState { authError := "Usuario o clave incorrectos", loading := false }
          (onSubmit validarAccept (LoginOutcome.resolves true)
            { usuario := "11.111.111-1", clave := "admin" })).authError = "") ∧
    ((validarAccept "11.111.111-1").valido = false →
      (foldState { authError := "Usuario o clave incorrectos", loading := false }
          (onSubmit validarAccept (LoginOutcome.resolves true)
            { usuario := "11.111.111-1", clave := "admin" })).authError =
        "RUT inválido: " ++ (validarAccept "11.111.111-1").mensaje)) :=
  c10_banner_reset_first validarAccept (LoginOutcome.resolves true)
    { usuario := "11.111.111-1", clave := "admin" }
    { authError := "Usuario o clave incorrectos", loading := false }

/-- The full observable form view: the two registered field values together
with the banner and loading flag.  No event emitted by the handler writes to
the field values — the source never calls a form reset. -/
structure FormView where
  usuarioField : String
  claveField : String
  authError : String
  loading : Bool
deriving DecidableEq

/-- Effect of a handler event on the full form view; field values are
untouched by every event. -/
def applyEventView (v : FormView) : Event → FormView
  | Event.setLoading b => { v with loading := b }
  | Event.setAuthError msg => { v with authError := msg }
  | Event.loginCall _ _ => v

/-- Form view after a trace of events. -/
def foldView (v : FormView) (tr : List Event) : FormView :=
  tr.foldl applyEventView v

/-- A form view is cleared when both field values are the empty string. -/
def formCleared (v : FormView) : Prop :=
  v.usuarioField = "" ∧ v.claveField = ""

instance : DecidablePred formCleared :=
  fun v => inferInstanceAs (Decidable (v.usuarioField = "" ∧ v.claveField = ""))

/-- Counterexample to C5 as stated: after a submission with a valid RUT whose
authentication resolves true, the field values still hold the submitted
credentials — the handler emits no event that clears the form. -/
theorem c5_success_does_not_clear_form :
    ¬ formCleared (foldView
        { usuarioField := "11.111.111-1", claveField := "admin",
          authError := "", loading := false }
        (onSubmit validarAccept (LoginOutcome.resolves true)
          { usuario := "11.111.111-1", clave := "admin" })) := by
  decide

/-- C5 (amended): per submission attempt the loading flag is written exactly
twice, true then false (idle → submitting → settled, linearly), at most one
authentication call happens (no retry), and the settled banner is empty
exactly on success and otherwise holds the single failure-specific message. -/
theorem c5_linear_state_machine (validarRUT : String → RutResult)
    (login : LoginOutcome) (data : LoginFormData) (s0 : FormState) :
    loadingWrites (onSubmit validarRUT login data) = [true, false] ∧
    (loginCalls (onSubmit validarRUT login data)).length ≤ 1 ∧
    (foldState s0 (onSubmit validarRUT login data)).loading = false ∧
    ((validarRUT data.usuario).valido = false →
      (foldState s0 (onSubmit validarRUT login data)).authError =
        "RUT inválido: " ++ (validarRUT data.usuario).mensaje) ∧
    ((validarRUT data.usuario).valido = true →
      (login = LoginOutcome.resolves true →
        (foldState s0 (onSubmit validarRUT login data)).authError = "") ∧
      (login = LoginOutcome.resolves false →
        (foldState s0 (onSubmit validarRUT login data)).authError =
          "Usuario o clave incorrectos") ∧
      (login = LoginOutcome.throws →
        (foldState s0 (onSubmit validarRUT login data)).authError =
          "Error al iniciar sesión")) := by
  refine ⟨?_, ?_, ?_, fun hv => ?_, fun hv => ?_⟩
  · cases hb : (validarRUT data.usuario).valido with
    | false => simp [onSubmit, hb, loadingWrites]
    | true =>
      cases login with
      | resolves success => cases success <;> simp [onSubmit, hb, loadingWrites]
      | throws => simp [onSubmit, hb, loadingWrites]
  · cases hb : (validarRUT data.usuario).valido with
    | false => simp [onSubmit, hb, loginCalls]
    | true =>
      cases login with
      | resolves success => cases success <;> simp [onSubmit, hb, loginCalls]
      | throws => simp [onSubmit, hb, loginCalls]
  · cases hb : (validarRUT data.usuario).valido with
    | false => simp [onSubmit, hb, foldState, applyEvent]
    | true =>
      cases login with
      | resolves success => cases success <;> simp [onSubmit, hb, foldState, applyEvent]
      | throws => simp [onSubmit, hb, foldState, applyEvent]
  · simp [onSubmit, hv, foldState, applyEvent]
  · refine ⟨fun hl => ?_, fun hl => ?_, fun hl => ?_⟩ <;>
      subst hl <;> simp [onSubmit, hv, foldState, applyEvent]

/-- Witness for the amended C5 at a concrete submission that throws. -/
theorem c5_linear_state_machine_witness :
    loadingWrites (onSubmit validarAccept LoginOutcome.throws
        { usuario := "22.222.222-2", clave := "1234" }) = [true, false] ∧
    (loginCalls (onSubmit validarAccept LoginOutcome.throws
        { usuario := "22.222.222-2", clave := "1234" })).length ≤ 1 ∧
    (foldState { authError := "", loading := false }
        (onSubmit validarAccept LoginOutcome.throws
          { usuario := "22.222.222-2", clave := "1234" })).loading = false ∧
    ((validarAccept "22.222.222-2").valido = false →
      (foldState { authError := "", loading := false }
          (onSubmit validarAccept LoginOutcome.throws
            { usuario := "22.222.222-2", clave := "1234" })).authError =
        "RUT inválido: " ++ (validarAccept "22.222.222-2").mensaje) ∧
    ((validarAccept "22.222.222-2").valido = true →
      (LoginOutcome.throws = LoginOutcome.resolves true →
        (foldState { authError := "", loading := false }
            (onSubmit validarAccept LoginOutcome.throws
              { usuario := "22.222.222-2", clave := "1234" })).authError = "") ∧
      (LoginOutcome.throws = LoginOutcome.resolves false →
        (foldState { authError := "", loading := false }
            (onSubmit validarAccept LoginOutcome.throws
              { usuario := "22.222.222-2", clave := "1234" })).authError =
          "Usuario o clave incorrectos") ∧
      (LoginOutcome.throws = LoginOutcome.throws →
        (foldState { authError := "", loading := false }
            (onSubmit validarAccept LoginOutcome.throws
              { usuario := "22.222.222-2", clave := "1234" })).authError =
          "Error al iniciar sesión")) :=
  c5_linear_state_machine validarAccept LoginOutcome.throws
    { usuario := "22.222.222-2", clave := "1234" }
    { authError := "", loading := false }

/-- Field-level error messages produced by schema validation (none when the
field passes). -/
structure FieldErrors where
  usuario : Option String
  clave : Option String
deriving DecidableEq

/-- The `loginSchema`: each field must be a string of length at least 1,
otherwise the field-specific message is reported. -/
def loginSchema (d : LoginFormData) : FieldErrors :=
  { usuario := if d.usuario.length < 1 then some "Usuario requerido" else none,
    clave := if d.clave.length < 1 then some "Clave requerida" else none }

/-- Result of a whole submission attempt through the form library: the field
errors surfaced inline, and the events of the handler, which runs only when
schema validation passes. -/
structure SubmitResult where
  fieldErrors : FieldErrors
  events : List Event
deriving DecidableEq

/-- The form library's `handleSubmit` with the schema resolver: on any field
error the handler is not invoked; otherwise it runs with the validated
payload. -/
def handleSubmit (validarRUT : String → RutResult) (login : LoginOutcome)
    (d : LoginFormData) : SubmitResult :=
  let errs := loginSchema d
  if errs.usuario = none ∧ errs.clave = none then
    { fieldErrors := errs, events := onSubmit validarRUT login d }
  else
    { fieldErrors := errs, events := [] }

/-- C2: an empty username or password is blocked by schema validation with the
field-specific message, and the handler — hence the authentication
collaborator — never runs. -/
theorem c2_empty_field_blocks_submission (validarRUT : String → RutResult)
    (login : LoginOutcome) (d : LoginFormData)
    (h : d.usuario = "" ∨ d.clave = "") :
    (d.usuario = "" →
      (handleSubmit validarRUT login d).fieldErrors.usuario = some "Usuario requerido") ∧
    (d.clave = "" →
      (handleSubmit validarRUT login d).fieldErrors.clave = some "Clave requerida") ∧
    (handleSubmit validarRUT login d).events = [] ∧
    loginCalls (handleSubmit validarRUT login d).events = [] := by
  have hb : ¬((loginSchema d).usuario = none ∧ (loginSchema d).clave = none) := by
    rcases h with hu | hc
    · intro hcontra
      have := hcontra.1
      simp [loginSchema, hu] at this
    · intro hcontra
      have := hcontra.2
      simp [loginSchema, hc] at this
  refine ⟨fun hu => ?_, fun hc => ?_, ?_, ?_⟩
  · simp [handleSubmit, hb, loginSchema, hu]
  · simp [handleSubmit, hb, loginSchema, hc]
  · simp [handleSubmit, hb]
  · simp [handleSubmit, hb, loginCalls]

/-- Witness for C2 at a concrete submission with an empty password. -/
theorem c2_empty_field_blocks_submission_witness :
    (({ usuario := "11.111.111-1", clave := "" } : LoginFormData).usuario = "" ∨
      ({ usuario := "11.111.111-1", clave := "" } : LoginFormData).clave = "") ∧
    ((({ usuario := "11.111.111-1", clave := "" } : LoginFormData).usuario = "" →
      (handleSubmit validarAccept (LoginOutcome.resolves true)
          { usuario := "11.111.111-1", clave := "" }).fieldErrors.usuario =
        some "Usuario requerido") ∧
    (({ usuario := "11.111.111-1", clave := "" } : LoginFormData).clave = "" →
      (handleSubmit validarAccept (LoginOutcome.resolves true)
          { usuario := "11.111.111-1", clave := "" }).fieldErrors.clave =
        some "Clave requerida") ∧
    (handleSubmit validarAccept (LoginOutcome.resolves true)
        { usuario := "11.111.111-1", clave := "" }).events = [] ∧
    loginCalls (handleSubmit validarAccept (LoginOutcome.resolves true)
        { usuario := "11.111.111-1", clave := "" }).events = []) :=
  ⟨Or.inr rfl,
   c2_empty_field_blocks_submission validarAccept (LoginOutcome.resolves true)
     { usuario := "11.111.111-1", clave := "" } (Or.inr rfl)⟩

/-- The three display states of a seat icon. -/
inductive SeatStatus where
  | available
  | occupied
  | total
deriving DecidableEq

/-- The three sizes of a seat icon. -/
inductive SeatSize where
  | sm
  | md
  | lg
deriving DecidableEq

/-- A rendered seat in a demo grid: its number, its status, and the seat
number its click handler records — `none` when the seat is rendered without a
click handler. -/
structure SeatRender where
  number : Nat
  status : SeatStatus
  onClick : Option Nat
deriving DecidableEq

/-- The simulated classroom grid of SeatIconDemo: 5 rows of 6 seats, seat
numbers `row * 6 + seat + 1`, the first 18 occupied; occupied seats get no
click handler, the rest get a handler recording their seat number. -/
def classroomGrid : List SeatRender :=
  (List.range 5).flatMap fun row =>
    (List.range 6).map fun seat =>
      let seatNumber := row * 6 + seat + 1
      let isOccupied := seatNumber ≤ 18
      { number := seatNumber,
        status := if isOccupied then SeatStatus.occupied else SeatStatus.available,
        onClick := if !isOccupied then some seatNumber else none }

/-- The simulated online-course grid of SeatIconDemo: 10 rows of 20 seats,
seat numbers `row * 20 + seat + 1`, the first 150 occupied; occupied seats get
no click handler, the rest get a handler recording their seat number. -/
def onlineCourseGrid : List SeatRender :=
  (List.range 10).flatMap fun row =>
    (List.range 20).map fun seat =>
      let seatNumber := row * 20 + seat + 1
      let isOccupied := seatNumber ≤ 150
      { number := seatNumber,
        status := if isOccupied then SeatStatus.occupied else SeatStatus.available,
        onClick := if !isOccupied then some seatNumber else none }

/-- C6: the classroom grid numbers its 30 seats `row * 6 + seat + 1`; seats
1–18 are occupied and non-clickable, seats 19–30 are available and their click
handler records the seat number. -/
theorem c6_classroom_grid_layout :
    classroomGrid.length = 30 ∧
    (∀ row < 5, ∀ seat < 6,
      (classroomGrid.get? (row * 6 + seat)).map SeatRender.number =
        some (row * 6 + seat + 1)) ∧
    (∀ s ∈ classroomGrid, 1 ≤ s.number ∧ s.number ≤ 30) ∧
    (∀ s ∈ classroomGrid, s.number ≤ 18 →
      s.status = SeatStatus.occupied ∧ s.onClick = none) ∧
    (∀ s ∈ classroomGrid, 19 ≤ s.number →
      s.status = SeatStatus.available ∧ s.onClick = some s.number) := by
  decide

set_option maxRecDepth 8192 in
/-- C9: the online-course grid numbers its 200 seats `row * 20 + seat + 1`;
seats 1–150 are occupied and non-clickable, seats 151–200 are available and
their click handler records the seat number. -/
theorem c9_online_course_grid_layout :
    onlineCourseGrid.length = 200 ∧
    (∀ row < 10, ∀ seat < 20,
      (onlineCourseGrid.get? (row * 20 + seat)).map SeatRender.number =
        some (row * 20 + seat + 1)) ∧
    (∀ s ∈ onlineCourseGrid, 1 ≤ s.number ∧ s.number ≤ 200) ∧
    (∀ s ∈ onlineCourseGrid, s.number ≤ 150 →
      s.status = SeatStatus.occupied ∧ s.onClick = none) ∧
    (∀ s ∈ onlineCourseGrid, 151 ≤ s.number →
      s.status = SeatStatus.available ∧ s.onClick = some s.number) := by
  decide

/-- The rendering parameters of a single SeatIcon. -/
structure SeatIconProps where
  number : Option Nat
  status : SeatStatus
  size : SeatSize
  showNumber : Bool
deriving DecidableEq

/-- Modelled from the spec: the SeatIcon widget (its component file is not
among the files at hand) displays its numeric label exactly when `showNumber`
is true and a `number` was supplied. -/
def displayedLabel (p : SeatIconProps) : Option Nat :=
  if p.showNumber then p.number else none

/-- C7: a SeatIcon with `showNumber = false` displays no numeric label, for
every number, status and size. -/
theorem c7_no_label_without_show (n : Option Nat) (st : SeatStatus)
    (sz : SeatSize) :
    displayedLabel { number := n, status := st, size := sz, showNumber := false } =
      none := by
  simp [displayedLabel]
